import Mathlib

/-!
Verification of the TorqCare repository against its specification.

Part A embeds the predictive-maintenance inference pipeline (Feature
Extractor, Model Bank, Diagnosis Composer and its serving wrapper).  The
backend implementation of this pipeline is not part of the checked-out
sources (only its frontend callers are), so these definitions are modelled
from the specification text, as their doc comments state.

Part B embeds, directly from the source file `src/tp/frontend/index.js`,
the alert/notification state updaters, the appointment time-slot
generator, and the appointment accept/reject handlers.
-/

namespace TorqCare

/-- Modelled from the spec: the severity tier enumeration
{Critical, High, Medium, Low, Normal} of a DiagnosisResult (backend
Diagnosis Composer, missing from the sources). -/
inductive Severity
  | Normal
  | Low
  | Medium
  | High
  | Critical
deriving DecidableEq

/-- Rank of a severity tier: larger means more severe. -/
def sevRank : Severity → Nat
  | Severity.Normal => 0
  | Severity.Low => 1
  | Severity.Medium => 2
  | Severity.High => 3
  | Severity.Critical => 4

/-- Modelled from the spec: the closed component enumeration
battery/motor/brake/tire/suspension/none (backend, missing from the
sources). -/
inductive Component
  | battery
  | motor
  | brake
  | tire
  | suspension
  | none
deriving DecidableEq

/-- Modelled from the spec: the sensor fields of a SensorReading
(section 3 of the spec; backend, missing from the sources). -/
inductive SensorField
  | soc
  | soh
  | batteryTemp
  | motorTemp
  | motorVibration
  | motorTorque
  | brakePadWear
  | tirePressureFl
  | tirePressureFr
  | tirePressureRl
  | tirePressureRr
  | ambientTemp
  | ambientHumidity
  | drivingSpeed
  | routeRoughness
  | powerConsumption
deriving DecidableEq

/-- Modelled from the spec: the contract-fixed training-time field order
shared by the Feature Extractor and the Training Pipeline. -/
def fieldOrder : List SensorField :=
  [SensorField.soc, SensorField.soh, SensorField.batteryTemp,
   SensorField.motorTemp, SensorField.motorVibration, SensorField.motorTorque,
   SensorField.brakePadWear, SensorField.tirePressureFl,
   SensorField.tirePressureFr, SensorField.tirePressureRl,
   SensorField.tirePressureRr, SensorField.ambientTemp,
   SensorField.ambientHumidity, SensorField.drivingSpeed,
   SensorField.routeRoughness, SensorField.powerConsumption]

/-- The documented fixed length of a feature vector. -/
def numFeatures : Nat := 16

/-- Modelled from the spec: the frozen per-field training-time default
fill values (data-derived constants frozen into the extractor; the exact
numbers are example policy). -/
def defaults : SensorField → ℚ
  | SensorField.soc => 60
  | SensorField.soh => 95
  | SensorField.batteryTemp => 25
  | SensorField.motorTemp => 40
  | SensorField.motorVibration => 1
  | SensorField.motorTorque => 100
  | SensorField.brakePadWear => 8
  | SensorField.tirePressureFl => 32
  | SensorField.tirePressureFr => 32
  | SensorField.tirePressureRl => 32
  | SensorField.tirePressureRr => 32
  | SensorField.ambientTemp => 20
  | SensorField.ambientHumidity => 50
  | SensorField.drivingSpeed => 50
  | SensorField.routeRoughness => 1
  | SensorField.powerConsumption => 15

/-- A sensor reading: an association of present fields to numeric values;
absent fields are simply missing from the list. -/
abbrev Reading := List (SensorField × ℚ)

/-- Look a field up in a reading; `Option.none` means the field is absent. -/
def lookupField (f : SensorField) : Reading → Option ℚ
  | [] => Option.none
  | (g, v) :: rest => if g = f then some v else lookupField f rest

/-- Modelled from the spec: `extract(reading) -> FeatureVector` (backend
Feature Extractor, missing from the sources).  For each field in the fixed
training-time order: copy the value if present, otherwise substitute the
frozen per-field default. -/
def extract (r : Reading) : List ℚ :=
  fieldOrder.map fun f => (lookupField f r).getD (defaults f)

/-- Modelled from the spec: the Model Bank's three independently trained
predictors (backend, missing from the sources). -/
structure ModelBank where
  predictFailure : List ℚ → ℚ
  predictComponent : List ℚ → Component
  predictRUL : List ℚ → ℚ

/-- Display name of a component, used in summaries. -/
def componentName : Component → String
  | Component.battery => "battery"
  | Component.motor => "motor"
  | Component.brake => "brake"
  | Component.tire => "tire"
  | Component.suspension => "suspension"
  | Component.none => "none"

/-- Display name of a severity tier, used in summaries. -/
def severityName : Severity → String
  | Severity.Normal => "Normal"
  | Severity.Low => "Low"
  | Severity.Medium => "Medium"
  | Severity.High => "High"
  | Severity.Critical => "Critical"

/-- Modelled from the spec: the DiagnosisResult output entity (backend,
missing from the sources). -/
structure DiagnosisResult where
  failureProb : ℚ
  component : Component
  rul : Option ℚ
  severity : Severity
  lowConfidence : Bool
  summary : String
deriving DecidableEq

/-- Modelled from the spec: the reporting threshold below which a failure
probability is not reported (policy default 0.3). -/
def reportingThreshold : ℚ := 3/10

/-- Modelled from the spec: the ordered severity threshold table of the
Diagnosis Composer: p at least 0.85 or RUL at most 3 days gives Critical;
p at least 0.65 or RUL at most 14 gives High; p at least 0.45 or RUL at
most 30 gives Medium; else Low.  Ties break toward the more severe tier. -/
def severityTier (p rul : ℚ) : Severity :=
  if 85/100 ≤ p ∨ rul ≤ 3 then Severity.Critical
  else if 65/100 ≤ p ∨ rul ≤ 14 then Severity.High
  else if 45/100 ≤ p ∨ rul ≤ 30 then Severity.Medium
  else Severity.Low

/-- Modelled from the spec: `diagnose(reading) -> DiagnosisResult`
(backend Diagnosis Composer, missing from the sources).  Extract features
once, query the failure probability, short-circuit to Normal below the
reporting threshold, otherwise query component and RUL, clamp a negative
RUL to zero with a low-confidence flag, and map (p, RUL) through the
severity table. -/
def diagnose (bank : ModelBank) (r : Reading) : DiagnosisResult :=
  let v := extract r
  let p := bank.predictFailure v
  if p < reportingThreshold then
    { failureProb := p, component := Component.none, rul := Option.none,
      severity := Severity.Normal, lowConfidence := false,
      summary := "no anomalies detected" }
  else
    let comp := bank.predictComponent v
    let rawRul := bank.predictRUL v
    let rulDays := if rawRul < 0 then 0 else rawRul
    { failureProb := p, component := comp, rul := some rulDays,
      severity := severityTier p rulDays,
      lowConfidence := decide (rawRul < 0),
      summary := componentName comp ++ " " ++
        severityName (severityTier p rulDays) ++ " RUL " ++ toString rulDays }

/-- A concrete bank whose failure predictor always answers 0.1. -/
def testBankLow : ModelBank :=
  { predictFailure := fun _ => 1/10,
    predictComponent := fun _ => Component.battery,
    predictRUL := fun _ => 5 }

/-- C1: for every reading whose predicted failure probability is below the
reporting threshold, diagnose returns severity Normal, component none,
RUL null and summary "no anomalies detected", and the result does not
depend on the component or RUL predictors (they are not queried). -/
theorem diagnose_below_threshold_normal (bank : ModelBank) (r : Reading)
    (h : bank.predictFailure (extract r) < reportingThreshold) :
    (diagnose bank r).severity = Severity.Normal ∧
    (diagnose bank r).component = Component.none ∧
    (diagnose bank r).rul = Option.none ∧
    (diagnose bank r).summary = "no anomalies detected" ∧
    ∀ pc pr, diagnose { bank with predictComponent := pc, predictRUL := pr } r
      = diagnose bank r := by
  refine ⟨?_, ?_, ?_, ?_, ?_⟩ <;> simp [diagnose, h]

/-- C1 witness: a concrete bank and reading exercising the short-circuit. -/
theorem diagnose_below_threshold_normal_witness :
    testBankLow.predictFailure (extract []) < reportingThreshold ∧
    ((diagnose testBankLow []).severity = Severity.Normal ∧
     (diagnose testBankLow []).component = Component.none ∧
     (diagnose testBankLow []).rul = Option.none ∧
     (diagnose testBankLow []).summary = "no anomalies detected" ∧
     ∀ pc pr,
       diagnose { testBankLow with predictComponent := pc, predictRUL := pr } []
         = diagnose testBankLow []) :=
  ⟨by norm_num [testBankLow, reportingThreshold],
   diagnose_below_threshold_normal testBankLow []
     (by norm_num [testBankLow, reportingThreshold])⟩

/-- Every severity rank is at most that of Critical. -/
theorem sevRank_le_four (s : Severity) : sevRank s ≤ 4 := by
  cases s <;> simp [sevRank]

/-- The threshold table never yields Normal; Normal comes only from the
short-circuit of the composer. -/
theorem severityTier_ne_normal (p rul : ℚ) :
    severityTier p rul ≠ Severity.Normal := by
  unfold severityTier
  split_ifs <;> simp

/-- The rank of the tier table as an explicit numeric formula. -/
theorem sevRank_severityTier (p rul : ℚ) :
    sevRank (severityTier p rul) =
      if 85/100 ≤ p ∨ rul ≤ 3 then 4
      else if 65/100 ≤ p ∨ rul ≤ 14 then 3
      else if 45/100 ≤ p ∨ rul ≤ 30 then 2
      else 1 := by
  unfold severityTier
  split_ifs <;> simp [sevRank]

/-- Core monotonicity of the threshold table in the probability, for a
fixed RUL. -/
theorem severityTier_mono (p q rul : ℚ) (h : p ≤ q) :
    sevRank (severityTier p rul) ≤ sevRank (severityTier q rul) := by
  rw [sevRank_severityTier, sevRank_severityTier]
  split_ifs <;>
    first
      | decide
      | (exfalso
         simp only [not_or, not_le] at *
         try casesm* _ ∧ _
         try casesm* _ ∨ _
         all_goals linarith)

/-- A concrete bank whose failure predictor always answers a given value. -/
def testBankP (p : ℚ) : ModelBank :=
  { predictFailure := fun _ => p,
    predictComponent := fun _ => Component.battery,
    predictRUL := fun _ => 50 }

/-- C2: the severity tier is monotone in the failure probability.  Two
diagnoses sharing the component and RUL predictors and differing only in
failure probability are ranked consistently: the larger probability never
gets a strictly less severe tier.  Ties at the thresholds break toward
the more severe tier: probability exactly 0.85 is Critical, exactly 0.65
is at least High, exactly 0.45 is at least Medium, and likewise RUL
exactly 3, 14 and 30 days. -/
theorem severity_monotone_in_probability :
    (∀ (bank1 bank2 : ModelBank) (r : Reading),
      bank1.predictComponent = bank2.predictComponent →
      bank1.predictRUL = bank2.predictRUL →
      bank1.predictFailure (extract r) ≤ bank2.predictFailure (extract r) →
      sevRank (diagnose bank1 r).severity ≤ sevRank (diagnose bank2 r).severity) ∧
    (∀ rul : ℚ, severityTier (85/100) rul = Severity.Critical ∧
      sevRank Severity.High ≤ sevRank (severityTier (65/100) rul) ∧
      sevRank Severity.Medium ≤ sevRank (severityTier (45/100) rul)) ∧
    (∀ p : ℚ, severityTier p 3 = Severity.Critical ∧
      sevRank Severity.High ≤ sevRank (severityTier p 14) ∧
      sevRank Severity.Medium ≤ sevRank (severityTier p 30)) := by
  refine ⟨?_, ?_, ?_⟩
  · intro bank1 bank2 r hcomp hrul hp
    by_cases h1 : bank1.predictFailure (extract r) < reportingThreshold
    · simp only [diagnose, h1, if_pos]
      simp [sevRank]
    · have h2 : ¬ bank2.predictFailure (extract r) < reportingThreshold := by
        simp only [not_lt] at h1 ⊢
        linarith
      simp only [diagnose, h1, h2, if_neg, if_false, hcomp, hrul]
      exact severityTier_mono _ _ _ hp
  · intro rul
    refine ⟨?_, ?_, ?_⟩
    · unfold severityTier
      rw [if_pos (Or.inl (by norm_num))]
    · rw [sevRank_severityTier]
      split_ifs <;>
        first
          | decide
          | (exfalso
             simp only [not_or, not_le] at *
             try casesm* _ ∧ _
             try casesm* _ ∨ _
             all_goals linarith)
    · rw [sevRank_severityTier]
      split_ifs <;>
        first
          | decide
          | (exfalso
             simp only [not_or, not_le] at *
             try casesm* _ ∧ _
             try casesm* _ ∨ _
             all_goals linarith)
  · intro p
    refine ⟨?_, ?_, ?_⟩
    · unfold severityTier
      rw [if_pos (Or.inr (by norm_num))]
    · rw [sevRank_severityTier]
      split_ifs <;>
        first
          | decide
          | (exfalso
             simp only [not_or, not_le] at *
             try casesm* _ ∧ _
             try casesm* _ ∨ _
             all_goals linarith)
    · rw [sevRank_severityTier]
      split_ifs <;>
        first
          | decide
          | (exfalso
             simp only [not_or, not_le] at *
             try casesm* _ ∧ _
             try casesm* _ ∨ _
             all_goals linarith)

/-- C2 witness: two concrete banks differing only in failure probability. -/
theorem severity_monotone_in_probability_witness :
    ((testBankP (1/2)).predictComponent = (testBankP (9/10)).predictComponent ∧
     (testBankP (1/2)).predictRUL = (testBankP (9/10)).predictRUL ∧
     (testBankP (1/2)).predictFailure (extract []) ≤
       (testBankP (9/10)).predictFailure (extract [])) ∧
    sevRank (diagnose (testBankP (1/2)) []).severity ≤
      sevRank (diagnose (testBankP (9/10)) []).severity :=
  ⟨⟨rfl, rfl, by norm_num [testBankP]⟩,
   severity_monotone_in_probability.1 (testBankP (1/2)) (testBankP (9/10)) []
     rfl rfl (by norm_num [testBankP])⟩

/-- A concrete bank whose RUL regressor answers a negative number. -/
def testBankNegRul : ModelBank :=
  { predictFailure := fun _ => 1/2,
    predictComponent := fun _ => Component.motor,
    predictRUL := fun _ => -5 }

/-- C3: a DiagnosisResult never carries a negative RUL, and whenever the
RUL regressor is consulted (probability at or above the reporting
threshold) and emits a negative number, the result reports RUL = 0 with
the low-confidence flag set. -/
theorem rul_clamped_nonneg (bank : ModelBank) (r : Reading) :
    (∀ d, (diagnose bank r).rul = some d → 0 ≤ d) ∧
    (reportingThreshold ≤ bank.predictFailure (extract r) →
     bank.predictRUL (extract r) < 0 →
     (diagnose bank r).rul = some 0 ∧ (diagnose bank r).lowConfidence = true) := by
  constructor
  · intro d hd
    by_cases h : bank.predictFailure (extract r) < reportingThreshold
    · simp [diagnose, h] at hd
    · simp only [diagnose, h, if_false, Option.some.injEq] at hd
      rw [← hd]
      split_ifs with hneg
      · exact le_refl 0
      · exact le_of_not_lt hneg
  · intro hp hneg
    have h : ¬ bank.predictFailure (extract r) < reportingThreshold :=
      not_lt.mpr hp
    constructor <;> simp [diagnose, h, hneg]

/-- C3 witness: a concrete bank with a negative RUL regressor output. -/
theorem rul_clamped_nonneg_witness :
    (reportingThreshold ≤ testBankNegRul.predictFailure (extract []) ∧
     testBankNegRul.predictRUL (extract []) < 0) ∧
    ((∀ d, (diagnose testBankNegRul []).rul = some d → 0 ≤ d) ∧
     ((diagnose testBankNegRul []).rul = some 0 ∧
      (diagnose testBankNegRul []).lowConfidence = true)) :=
  ⟨⟨by norm_num [testBankNegRul, reportingThreshold],
    by norm_num [testBankNegRul]⟩,
   ⟨(rul_clamped_nonneg testBankNegRul []).1,
    (rul_clamped_nonneg testBankNegRul []).2
      (by norm_num [testBankNegRul, reportingThreshold])
      (by norm_num [testBankNegRul])⟩⟩

/-- C5: diagnose is a pure function of the bank and the reading: two calls
with the identical reading and an unchanged Model Bank yield the identical
DiagnosisResult (the model has no other input and no mutable state). -/
theorem diagnose_deterministic :
    ∀ (bank : ModelBank) (r : Reading), diagnose bank r = diagnose bank r :=
  fun _ _ => rfl

/-- C4: extract produces a vector of the documented fixed length in the
documented fixed field order; a present field's value is copied unchanged
to that field's position, and a missing field is filled with its frozen
per-field training-time default. -/
theorem extract_fixed_schema (r : Reading) :
    (extract r).length = numFeatures ∧
    ∀ (i : Nat) (f : SensorField), fieldOrder[i]? = some f →
      (∀ v, lookupField f r = some v → (extract r)[i]? = some v) ∧
      (lookupField f r = Option.none → (extract r)[i]? = some (defaults f)) := by
  constructor
  · simp [extract, numFeatures, fieldOrder]
  · intro i f hf
    constructor
    · intro v hv
      simp [extract, List.getElem?_map, hf, hv]
    · intro hnone
      simp [extract, List.getElem?_map, hf, hnone]

/-- C4 witness: a reading with only the battery temperature present keeps
that value at its slot and fills the missing state-of-charge with its
default. -/
theorem extract_fixed_schema_witness :
    (fieldOrder[2]? = some SensorField.batteryTemp ∧
     lookupField SensorField.batteryTemp [(SensorField.batteryTemp, 30)] = some 30 ∧
     fieldOrder[0]? = some SensorField.soc ∧
     lookupField SensorField.soc [(SensorField.batteryTemp, 30)] = Option.none) ∧
    ((extract [(SensorField.batteryTemp, 30)]).length = numFeatures ∧
     (extract [(SensorField.batteryTemp, 30)])[2]? = some 30 ∧
     (extract [(SensorField.batteryTemp, 30)])[0]? =
       some (defaults SensorField.soc)) :=
  ⟨⟨by decide, by decide, by decide, by decide⟩,
   ⟨(extract_fixed_schema [(SensorField.batteryTemp, 30)]).1,
    ((extract_fixed_schema [(SensorField.batteryTemp, 30)]).2 2
       SensorField.batteryTemp (by decide)).1 30 (by decide),
    ((extract_fixed_schema [(SensorField.batteryTemp, 30)]).2 0
       SensorField.soc (by decide)).2 (by decide)⟩⟩

/-- Modelled from the spec: a persisted model artifact together with its
schema version tag and an intactness flag (file present and uncorrupted);
backend artifact store, missing from the sources. -/
structure Artifact (α : Type) where
  schemaVersion : Nat
  intact : Bool
  payload : α

/-- Modelled from the spec: the artifact paths handed to ModelBank.load,
one per predictor. -/
structure ArtifactPaths where
  failure : Artifact (List ℚ → ℚ)
  component : Artifact (List ℚ → Component)
  rul : Artifact (List ℚ → ℚ)

/-- Modelled from the spec: the error kinds of the load path. -/
inductive LoadError
  | artifactLoadError
  | featureSchemaMismatchError
deriving DecidableEq

/-- The Feature Extractor's compiled-in schema version. -/
def extractorSchemaVersion : Nat := 1

/-- Modelled from the spec: `load(artifactPaths) -> ModelBank` (backend,
missing from the sources).  A schema version mismatch with the extractor's
compiled-in version is a hard failure; a missing or corrupt file fails
with ArtifactLoadError; only otherwise is a bank produced. -/
def ModelBank.load (ap : ArtifactPaths) : Except LoadError ModelBank :=
  if ap.failure.schemaVersion ≠ extractorSchemaVersion ∨
     ap.component.schemaVersion ≠ extractorSchemaVersion ∨
     ap.rul.schemaVersion ≠ extractorSchemaVersion then
    Except.error LoadError.featureSchemaMismatchError
  else if ap.failure.intact ∧ ap.component.intact ∧ ap.rul.intact then
    Except.ok
      { predictFailure := ap.failure.payload,
        predictComponent := ap.component.payload,
        predictRUL := ap.rul.payload }
  else
    Except.error LoadError.artifactLoadError

/-- C6: whenever any artifact's schema version tag differs from the
extractor's compiled-in version, load fails with
FeatureSchemaMismatchError, and no Model Bank is produced at all, so no
prediction can be attempted. -/
theorem load_schema_mismatch_fails (ap : ArtifactPaths)
    (h : ap.failure.schemaVersion ≠ extractorSchemaVersion ∨
         ap.component.schemaVersion ≠ extractorSchemaVersion ∨
         ap.rul.schemaVersion ≠ extractorSchemaVersion) :
    ModelBank.load ap = Except.error LoadError.featureSchemaMismatchError ∧
    ∀ bank, ModelBank.load ap ≠ Except.ok bank := by
  constructor
  · simp [ModelBank.load, h]
  · intro bank hcontra
    rw [ModelBank.load, if_pos h] at hcontra
    exact Except.noConfusion hcontra

/-- Concrete artifact paths whose failure artifact carries a stale schema
version. -/
def staleArtifacts : ArtifactPaths :=
  { failure := { schemaVersion := 0, intact := true, payload := fun _ => 0 },
    component := { schemaVersion := 1, intact := true,
                   payload := fun _ => Component.none },
    rul := { schemaVersion := 1, intact := true, payload := fun _ => 0 } }

/-- C6 witness: loading with a stale schema version fails before any
prediction. -/
theorem load_schema_mismatch_fails_witness :
    (staleArtifacts.failure.schemaVersion ≠ extractorSchemaVersion ∨
     staleArtifacts.component.schemaVersion ≠ extractorSchemaVersion ∨
     staleArtifacts.rul.schemaVersion ≠ extractorSchemaVersion) ∧
    (ModelBank.load staleArtifacts =
       Except.error LoadError.featureSchemaMismatchError ∧
     ∀ bank, ModelBank.load staleArtifacts ≠ Except.ok bank) :=
  ⟨Or.inl (by decide),
   load_schema_mismatch_fails staleArtifacts (Or.inl (by decide))⟩

/-- Modelled from the spec: the serving-time model state; a predictor that
was never successfully loaded is `Option.none` and must fail fast rather
than fabricate a default. -/
structure ServingState where
  failureModel : Option (List ℚ → ℚ)
  componentModel : Option (List ℚ → Component)
  rulModel : Option (List ℚ → ℚ)

/-- Modelled from the spec: a raw request reading, possibly missing the
required identity fields (vehicle id, timestamp). -/
structure RawReading where
  vehicleId : Option String
  timestamp : Option Nat
  fields : Reading

/-- Modelled from the spec: the error kinds surfaced to the caller of
diagnose. -/
inductive DiagError
  | modelUnavailable
  | invalidReading
deriving DecidableEq

/-- Modelled from the spec: the serving wrapper around the Diagnosis
Composer (backend, missing from the sources).  A reading without identity
fields is rejected before feature extraction; a missing predictor fails
fast with ModelUnavailableError; otherwise the composed diagnosis is
returned. -/
def diagnoseRequest (s : ServingState) (r : RawReading) :
    Except DiagError DiagnosisResult :=
  if r.vehicleId = Option.none ∨ r.timestamp = Option.none then
    Except.error DiagError.invalidReading
  else
    match s.failureModel with
    | Option.none => Except.error DiagError.modelUnavailable
    | some pf =>
      let p := pf (extract r.fields)
      if p < reportingThreshold then
        Except.ok
          { failureProb := p, component := Component.none, rul := Option.none,
            severity := Severity.Normal, lowConfidence := false,
            summary := "no anomalies detected" }
      else
        match s.componentModel, s.rulModel with
        | some pc, some pr =>
          Except.ok (diagnose { predictFailure := pf, predictComponent := pc,
                                predictRUL := pr } r.fields)
        | _, _ => Except.error DiagError.modelUnavailable

/-- C7: every failing diagnosis request surfaces an explicit error status:
a reading without identity fields is rejected, a missing failure predictor
fails fast, and any successfully returned result draws its probability
from an actually loaded predictor — in particular severity Normal is
reported only when that real predictor's probability is below the
reporting threshold, never as a stand-in for a failure. -/
theorem diagnose_request_error_explicit (s : ServingState) (r : RawReading) :
    (r.vehicleId = Option.none ∨ r.timestamp = Option.none →
      diagnoseRequest s r = Except.error DiagError.invalidReading) ∧
    (¬(r.vehicleId = Option.none ∨ r.timestamp = Option.none) →
     s.failureModel = Option.none →
      diagnoseRequest s r = Except.error DiagError.modelUnavailable) ∧
    (∀ d, diagnoseRequest s r = Except.ok d →
      ¬(r.vehicleId = Option.none ∨ r.timestamp = Option.none) ∧
      ∃ pf, s.failureModel = some pf ∧
        d.failureProb = pf (extract r.fields) ∧
        (d.severity = Severity.Normal →
          pf (extract r.fields) < reportingThreshold)) := by
  refine ⟨?_, ?_, ?_⟩
  · intro h
    simp [diagnoseRequest, h]
  · intro h hnone
    simp [diagnoseRequest, h, hnone]
  · intro d hd
    by_cases h : r.vehicleId = Option.none ∨ r.timestamp = Option.none
    · simp [diagnoseRequest, h] at hd
    · refine ⟨h, ?_⟩
      rw [diagnoseRequest, if_neg h] at hd
      cases hpf : s.failureModel with
      | none => rw [hpf] at hd; exact absurd hd (by simp)
      | some pf =>
        rw [hpf] at hd
        refine ⟨pf, rfl, ?_⟩
        by_cases hp : pf (extract r.fields) < reportingThreshold
        · simp only [hp, if_pos] at hd
          cases hd
          exact ⟨rfl, fun _ => hp⟩
        · simp only [hp, if_false] at hd
          cases hpc : s.componentModel with
          | none => rw [hpc] at hd; exact absurd hd (by simp)
          | some pc =>
            cases hpr : s.rulModel with
            | none => rw [hpc, hpr] at hd; exact absurd hd (by simp)
            | some pr =>
              rw [hpc, hpr] at hd
              cases hd
              constructor
              · simp [diagnose, hp]
              · intro hnorm
                exfalso
                rw [diagnose] at hnorm
                simp only [hp, if_false] at hnorm
                exact severityTier_ne_normal _ _ hnorm

/-- A serving state with no failure predictor loaded. -/
def emptyServing : ServingState :=
  { failureModel := Option.none, componentModel := Option.none,
    rulModel := Option.none }

/-- A raw reading with identity fields present. -/
def identifiedReading : RawReading :=
  { vehicleId := some "EV-001", timestamp := some 0, fields := [] }

/-- C7 witness: a valid reading against an empty serving state fails fast
with an explicit ModelUnavailableError. -/
theorem diagnose_request_error_explicit_witness :
    (¬(identifiedReading.vehicleId = Option.none ∨
       identifiedReading.timestamp = Option.none) ∧
     emptyServing.failureModel = Option.none) ∧
    diagnoseRequest emptyServing identifiedReading =
      Except.error DiagError.modelUnavailable :=
  ⟨⟨by simp [identifiedReading], rfl⟩,
   (diagnose_request_error_explicit emptyServing identifiedReading).2.1
     (by simp [identifiedReading]) rfl⟩

/-- An alert entry, from `src/tp/frontend/index.js` (addAlert): id is the
creation time `Date.now()`. -/
structure Alert where
  id : Nat
  severity : String
  message : String
  system : String
deriving DecidableEq

/-- A notification entry, from `src/tp/frontend/index.js`
(addNotification). -/
structure Notification where
  id : Nat
  title : String
  message : String
  type : String
deriving DecidableEq

/-- The React component state touched by addAlert and addNotification. -/
structure AppState where
  alerts : List Alert
  notifications : List Notification
deriving DecidableEq

/-- `addNotification` from `src/tp/frontend/index.js` lines 69-78: prepend
the new entry and keep at most the first four old ones
(`[newNotif, ...prev.slice(0, 4)]`).  `Date.now()` is passed in as `now`. -/
def addNotification (title message type : String) (now : Nat)
    (st : AppState) : AppState :=
  { st with notifications :=
      { id := now, title := title, message := message, type := type } ::
        st.notifications.take 4 }

/-- `addAlert` from `src/tp/frontend/index.js` lines 54-67: prepend the new
alert and keep at most the first nine old ones
(`[newAlert, ...prev.slice(0, 9)]`); when the severity is critical, also
push a notification. -/
def addAlert (severity message system : String) (now : Nat)
    (st : AppState) : AppState :=
  let newAlert : Alert :=
    { id := now, severity := severity, message := message, system := system }
  let st1 := { st with alerts := newAlert :: st.alerts.take 9 }
  if severity = "critical" then
    addNotification ("Critical Issue Detected") message ("error") now st1
  else st1

/-- C9: after addAlert the alerts list holds at most 10 entries with the
newest first; after addNotification the notifications list holds at most
5 entries with the newest first; addAlert touches the notifications only
for a critical severity, in which case it prepends exactly the critical
notification. -/
theorem alert_notification_bounds (st : AppState)
    (severity message system title nmessage ntype : String) (now : Nat) :
    ((addAlert severity message system now st).alerts.length ≤ 10 ∧
     (addAlert severity message system now st).alerts.head? =
       some { id := now, severity := severity, message := message,
              system := system }) ∧
    ((addNotification title nmessage ntype now st).notifications.length ≤ 5 ∧
     (addNotification title nmessage ntype now st).notifications.head? =
       some { id := now, title := title, message := nmessage,
              type := ntype }) ∧
    (severity = "critical" →
      (addAlert severity message system now st).notifications =
        { id := now, title := "Critical Issue Detected", message := message,
          type := "error" } :: st.notifications.take 4) ∧
    (severity ≠ "critical" →
      (addAlert severity message system now st).notifications =
        st.notifications) := by
  refine ⟨⟨?_, ?_⟩, ⟨?_, ?_⟩, ?_, ?_⟩
  · unfold addAlert addNotification
    split_ifs <;> simp
  · unfold addAlert addNotification
    split_ifs <;> simp
  · simp [addNotification]
  · simp [addNotification]
  · intro h
    simp [addAlert, addNotification, h]
  · intro h
    simp [addAlert, addNotification, h]

/-- C9 witness: a critical alert on a concrete state appends the critical
notification and respects both bounds. -/
theorem alert_notification_bounds_witness :
    (("critical" : String) = "critical") ∧
    ((addAlert ("critical") ("Engine temperature critical") ("Engine") 7
        { alerts := [], notifications := [] }).alerts.length ≤ 10 ∧
     (addAlert ("critical") ("Engine temperature critical") ("Engine") 7
        { alerts := [], notifications := [] }).notifications =
       { id := 7, title := "Critical Issue Detected",
         message := "Engine temperature critical", type := "error" } ::
         ([] : List Notification).take 4) :=
  ⟨rfl,
   (alert_notification_bounds { alerts := [], notifications := [] }
      ("critical") ("Engine temperature critical") ("Engine") ("t") ("m")
      ("ty") 7).1.1,
   (alert_notification_bounds { alerts := [], notifications := [] }
      ("critical") ("Engine temperature critical") ("Engine") ("t") ("m")
      ("ty") 7).2.2.1 rfl⟩

/-- An appointment time slot, from `src/tp/frontend/index.js`
(generateTimeSlots): the date is modelled as a day number (today + offset),
`available` is the outcome of the random draw. -/
structure Slot where
  date : Nat
  time : String
  available : Bool
deriving DecidableEq

/-- The per-day times of `generateTimeSlots`: three times for a critical
urgency, those plus 04:00 PM otherwise. -/
def slotTimes (urgency : String) : List String :=
  if urgency = "critical" then ["09:00 AM", "11:00 AM", "02:00 PM"]
  else ["09:00 AM", "11:00 AM", "02:00 PM", "04:00 PM"]

/-- `generateTimeSlots` from `src/tp/frontend/index.js` lines 436-455: for
each of 5 consecutive days starting today and each time of the day, push
one slot whose availability is `Math.random() > 0.3`.  The stream of
`Math.random()` outcomes is passed in as `rands`, consumed in push order. -/
def generateTimeSlots (urgency : String) (today : Nat)
    (rands : Nat → ℚ) : List Slot :=
  (List.range 5).flatMap fun day =>
    ((slotTimes urgency).enum).map fun jt =>
      { date := today + day, time := jt.2,
        available := decide (3/10 < rands (day * (slotTimes urgency).length + jt.1)) }

/-- Modelled from the source: the set of `Math.random()` outcomes (uniform
on [0,1)) that make one slot available, i.e. those exceeding 0.3. -/
def availDraws : Set ℝ := {x : ℝ | x ∈ Set.Ico (0:ℝ) 1 ∧ 3/10 < x}

/-- The available draws form the interval (0.3, 1). -/
theorem availDraws_eq : availDraws = Set.Ioo (3/10 : ℝ) 1 := by
  ext x
  simp only [availDraws, Set.mem_setOf_eq, Set.mem_Ico, Set.mem_Ioo]
  constructor
  · rintro ⟨⟨h0, h1⟩, h3⟩
    exact ⟨h3, h1⟩
  · rintro ⟨h3, h1⟩
    exact ⟨⟨by linarith, h1⟩, h3⟩

/-- C8: generateTimeSlots returns one slot per time per day for 5
consecutive days starting today — 15 slots over the three times 09:00 AM,
11:00 AM, 02:00 PM when the urgency is critical, and 20 slots over those
plus 04:00 PM otherwise — where the k-th slot pushed consumes the k-th
random draw and is available exactly when that draw exceeds 0.3, an event
of measure 0.7 under the uniform distribution of Math.random on [0,1). -/
theorem generateTimeSlots_spec (urgency : String) (today : Nat)
    (rands : Nat → ℚ) :
    (urgency = "critical" →
      generateTimeSlots urgency today rands =
        [⟨today, "09:00 AM", decide (3/10 < rands 0)⟩,
         ⟨today, "11:00 AM", decide (3/10 < rands 1)⟩,
         ⟨today, "02:00 PM", decide (3/10 < rands 2)⟩,
         ⟨today + 1, "09:00 AM", decide (3/10 < rands 3)⟩,
         ⟨today + 1, "11:00 AM", decide (3/10 < rands 4)⟩,
         ⟨today + 1, "02:00 PM", decide (3/10 < rands 5)⟩,
         ⟨today + 2, "09:00 AM", decide (3/10 < rands 6)⟩,
         ⟨today + 2, "11:00 AM", decide (3/10 < rands 7)⟩,
         ⟨today + 2, "02:00 PM", decide (3/10 < rands 8)⟩,
         ⟨today + 3, "09:00 AM", decide (3/10 < rands 9)⟩,
         ⟨today + 3, "11:00 AM", decide (3/10 < rands 10)⟩,
         ⟨today + 3, "02:00 PM", decide (3/10 < rands 11)⟩,
         ⟨today + 4, "09:00 AM", decide (3/10 < rands 12)⟩,
         ⟨today + 4, "11:00 AM", decide (3/10 < rands 13)⟩,
         ⟨today + 4, "02:00 PM", decide (3/10 < rands 14)⟩]) ∧
    (urgency ≠ "critical" →
      generateTimeSlots urgency today rands =
        [⟨today, "09:00 AM", decide (3/10 < rands 0)⟩,
         ⟨today, "11:00 AM", decide (3/10 < rands 1)⟩,
         ⟨today, "02:00 PM", decide (3/10 < rands 2)⟩,
         ⟨today, "04:00 PM", decide (3/10 < rands 3)⟩,
         ⟨today + 1, "09:00 AM", decide (3/10 < rands 4)⟩,
         ⟨today + 1, "11:00 AM", decide (3/10 < rands 5)⟩,
         ⟨today + 1, "02:00 PM", decide (3/10 < rands 6)⟩,
         ⟨today + 1, "04:00 PM", decide (3/10 < rands 7)⟩,
         ⟨today + 2, "09:00 AM", decide (3/10 < rands 8)⟩,
         ⟨today + 2, "11:00 AM", decide (3/10 < rands 9)⟩,
         ⟨today + 2, "02:00 PM", decide (3/10 < rands 10)⟩,
         ⟨today + 2, "04:00 PM", decide (3/10 < rands 11)⟩,
         ⟨today + 3, "09:00 AM", decide (3/10 < rands 12)⟩,
         ⟨today + 3, "11:00 AM", decide (3/10 < rands 13)⟩,
         ⟨today + 3, "02:00 PM", decide (3/10 < rands 14)⟩,
         ⟨today + 3, "04:00 PM", decide (3/10 < rands 15)⟩,
         ⟨today + 4, "09:00 AM", decide (3/10 < rands 16)⟩,
         ⟨today + 4, "11:00 AM", decide (3/10 < rands 17)⟩,
         ⟨today + 4, "02:00 PM", decide (3/10 < rands 18)⟩,
         ⟨today + 4, "04:00 PM", decide (3/10 < rands 19)⟩]) ∧
    MeasureTheory.volume availDraws = ENNReal.ofReal (7/10) := by
  refine ⟨?_, ?_, ?_⟩
  · intro h
    subst h
    rfl
  · intro h
    simp only [generateTimeSlots, slotTimes, if_neg h]
    rfl
  · rw [availDraws_eq, Real.volume_Ioo]
    congr 1
    norm_num

/-- C8 witness: a concrete critical call with an all-zero random stream. -/
theorem generateTimeSlots_spec_witness :
    (("critical" : String) = "critical") ∧
    generateTimeSlots ("critical") 0 (fun _ => 0) =
      [⟨0, "09:00 AM", decide ((3:ℚ)/10 < 0)⟩,
       ⟨0, "11:00 AM", decide ((3:ℚ)/10 < 0)⟩,
       ⟨0, "02:00 PM", decide ((3:ℚ)/10 < 0)⟩,
       ⟨0 + 1, "09:00 AM", decide ((3:ℚ)/10 < 0)⟩,
       ⟨0 + 1, "11:00 AM", decide ((3:ℚ)/10 < 0)⟩,
       ⟨0 + 1, "02:00 PM", decide ((3:ℚ)/10 < 0)⟩,
       ⟨0 + 2, "09:00 AM", decide ((3:ℚ)/10 < 0)⟩,
       ⟨0 + 2, "11:00 AM", decide ((3:ℚ)/10 < 0)⟩,
       ⟨0 + 2, "02:00 PM", decide ((3:ℚ)/10 < 0)⟩,
       ⟨0 + 3, "09:00 AM", decide ((3:ℚ)/10 < 0)⟩,
       ⟨0 + 3, "11:00 AM", decide ((3:ℚ)/10 < 0)⟩,
       ⟨0 + 3, "02:00 PM", decide ((3:ℚ)/10 < 0)⟩,
       ⟨0 + 4, "09:00 AM", decide ((3:ℚ)/10 < 0)⟩,
       ⟨0 + 4, "11:00 AM", decide ((3:ℚ)/10 < 0)⟩,
       ⟨0 + 4, "02:00 PM", decide ((3:ℚ)/10 < 0)⟩] :=
  ⟨rfl, (generateTimeSlots_spec ("critical") 0 (fun _ => 0)).1 rfl⟩

/-- A workshop record, from `src/tp/frontend/index.js` (the workshops
array of the Appointments component). -/
structure Workshop where
  id : Nat
  name : String
  location : String
  rating : ℚ
  distance : String
deriving DecidableEq

/-- An appointment, from `src/tp/frontend/index.js` (handleBooking). -/
structure Appointment where
  id : Nat
  workshop : Workshop
  slot : Slot
  urgency : String
  status : String
  createdAt : Nat
deriving DecidableEq

/-- `handleAccept` from `src/tp/frontend/index.js` lines 474-479, the
updater passed to setAppointments: map every appointment with the matching
id to a copy whose status is confirmed. -/
def handleAccept (id : Nat) (apts : List Appointment) : List Appointment :=
  apts.map fun apt =>
    if apt.id = id then { apt with status := "confirmed" } else apt

/-- `handleReject` from `src/tp/frontend/index.js` lines 481-484, the
updater passed to setAppointments: keep exactly the appointments whose id
differs. -/
def handleReject (id : Nat) (apts : List Appointment) : List Appointment :=
  apts.filter fun apt => apt.id != id

/-- C10: accepting changes only the status field of the appointment with
the matching id to confirmed — every other field of it and every
appointment with a different id are untouched, in place; rejecting keeps
the list order and exactly the appointments whose id differs from the
matching one. -/
theorem handle_accept_reject_frame (i : Nat) (apts : List Appointment) :
    ((handleAccept i apts).length = apts.length ∧
     ∀ (k : Nat) (apt : Appointment), apts[k]? = some apt →
       ∃ apt2, (handleAccept i apts)[k]? = some apt2 ∧
         apt2.id = apt.id ∧ apt2.workshop = apt.workshop ∧
         apt2.slot = apt.slot ∧ apt2.urgency = apt.urgency ∧
         apt2.createdAt = apt.createdAt ∧
         apt2.status = (if apt.id = i then "confirmed" else apt.status)) ∧
    ((handleReject i apts).Sublist apts ∧
     ∀ apt, apt ∈ handleReject i apts ↔ apt ∈ apts ∧ apt.id ≠ i) := by
  refine ⟨⟨?_, ?_⟩, ?_, ?_⟩
  · simp [handleAccept]
  · intro k apt hk
    refine ⟨if apt.id = i then { apt with status := "confirmed" } else apt,
            ?_, ?_⟩
    · simp [handleAccept, List.getElem?_map, hk]
    · split_ifs with h <;> simp [h]
  · exact List.filter_sublist _
  · intro apt
    simp [handleReject, List.mem_filter, bne_iff_ne]

/-- Two concrete pending appointments sharing a workshop. -/
def testApts : List Appointment :=
  [{ id := 1,
     workshop := { id := 1, name := "AutoCare Center", location := "Downtown",
                   rating := 48/10, distance := "2.5 km" },
     slot := { date := 0, time := "09:00 AM", available := true },
     urgency := "routine", status := "pending", createdAt := 0 },
   { id := 2,
     workshop := { id := 1, name := "AutoCare Center", location := "Downtown",
                   rating := 48/10, distance := "2.5 km" },
     slot := { date := 1, time := "11:00 AM", available := true },
     urgency := "critical", status := "pending", createdAt := 0 }]

/-- C10 witness: accepting id 1 in a concrete two-element list confirms
the first appointment and leaves the second untouched. -/
theorem handle_accept_reject_frame_witness :
    (testApts[0]? = some (testApts.get ⟨0, by decide⟩) ∧
     testApts[1]? = some (testApts.get ⟨1, by decide⟩)) ∧
    ((∃ apt2, (handleAccept 1 testApts)[0]? = some apt2 ∧
        apt2.id = (testApts.get ⟨0, by decide⟩).id ∧
        apt2.workshop = (testApts.get ⟨0, by decide⟩).workshop ∧
        apt2.slot = (testApts.get ⟨0, by decide⟩).slot ∧
        apt2.urgency = (testApts.get ⟨0, by decide⟩).urgency ∧
        apt2.createdAt = (testApts.get ⟨0, by decide⟩).createdAt ∧
        apt2.status = (if (testApts.get ⟨0, by decide⟩).id = 1
          then "confirmed" else (testApts.get ⟨0, by decide⟩).status)) ∧
     (∀ apt, apt ∈ handleReject 1 testApts ↔ apt ∈ testApts ∧ apt.id ≠ 1)) :=
  ⟨⟨rfl, rfl⟩,
   (handle_accept_reject_frame 1 testApts).1.2 0 (testApts.get ⟨0, by decide⟩)
     rfl,
   (handle_accept_reject_frame 1 testApts).2.2⟩

end TorqCare
